import Mathlib

/-!
# Breamer session control plane — verification development

Shallow embedding of the resilience layer of the Breamer browser-streaming
gateway: the operation fabric (retry, timeout, circuit breaker), the
per-client screencast frame queue, the session health loop, the memory
governor and the inbound message dispatch, together with theorems that
settle the specified invariants against these definitions.
-/

namespace Breamer

/-! ## OperationManager (src/unnamed/part_005)

`withRetry` attempts an operation up to `retries` times.  We embed the loop
over an abstract operation `op : Nat → Except String α` giving the outcome of
each 0-based attempt, and record alongside the result the list of backoff
delays slept and the number of times the operation was invoked. -/

/-- Terminal error text of `withRetry`:
`Operation failed after ${retries} attempts: ${lastError?.message}`
(JavaScript renders an absent last error as the string "undefined"). -/
def retryTerminalMsg (retries : Nat) (lastErr : Option String) : String :=
  "Operation failed after " ++ toString retries ++ " attempts: " ++
    (match lastErr with
     | some m => m
     | none => "undefined")

/-- Trace of one `withRetry` run: final outcome, the backoff delays performed
between attempts, and how many times the wrapped operation was invoked. -/
structure RetryTrace (α : Type) where
  result : Except String α
  delays : List Nat
  invocations : Nat
  deriving Repr

/-- The retry loop of `OperationManager.withRetry` (part_005 lines 27-44).
`remaining` counts the attempts still allowed; the current attempt index is
`retries - remaining`.  After a failed attempt `a` that is not the last one
(`attempt < retries - 1`) the loop sleeps `backoff * 2 ^ a`. -/
def retryLoop (op : Nat → Except String α) (retries backoff : Nat) :
    Nat → Option String → RetryTrace α
  | 0, lastErr => ⟨.error (retryTerminalMsg retries lastErr), [], 0⟩
  | remaining + 1, _ =>
    let attempt := retries - (remaining + 1)
    match op attempt with
    | .ok v => ⟨.ok v, [], 1⟩
    | .error e =>
      let rest := retryLoop op retries backoff remaining (some e)
      if remaining = 0 then
        ⟨rest.result, rest.delays, rest.invocations + 1⟩
      else
        ⟨rest.result, backoff * 2 ^ attempt :: rest.delays, rest.invocations + 1⟩

/-- `OperationManager.withRetry` (part_005 lines 20-47) over the outcome
function `op`. -/
def withRetry (op : Nat → Except String α) (retries backoff : Nat) :
    RetryTrace α :=
  retryLoop op retries backoff retries none

/-! ## Circuit breaker (src/unnamed/part_005 lines 67-116) -/

/-- Mutable state captured by the closure of `createCircuitBreaker`. -/
structure CircuitState where
  failures : Nat
  lastFailureTime : Nat
  isOpen : Bool
  deriving Repr, DecidableEq

/-- Initial breaker state: `failures = 0, lastFailureTime = 0, isOpen = false`. -/
def cbInit : CircuitState := ⟨0, 0, false⟩

/-- Outcome of one `execute` call: the new breaker state, whether the wrapped
operation was invoked, and the call's result. -/
structure CbOutcome (α : Type) where
  state : CircuitState
  invoked : Bool
  result : Except String α

/-- One call of the breaker's `execute` (part_005 lines 76-104).  `now` is
`Date.now()` at the call; `op` the wrapped operation's outcome were it run. -/
def cbExecute (threshold resetTimeout : Nat) (s : CircuitState) (now : Nat)
    (op : Except String α) : CbOutcome α :=
  -- reset the circuit when it is open and the reset window has elapsed
  let s0 := if s.isOpen ∧ now - s.lastFailureTime > resetTimeout then
              { s with failures := 0, isOpen := false }
            else s
  -- while open, fail fast
  if s0.isOpen then
    ⟨s0, false, .error "Circuit breaker is open - operation blocked"⟩
  else
    match op with
    | .ok v => ⟨{ s0 with failures := 0 }, true, .ok v⟩
    | .error e =>
      let f := s0.failures + 1
      ⟨⟨f, now, if threshold ≤ f then true else s0.isOpen⟩, true, .error e⟩

/-- The breaker's `getState` projection. -/
def cbGetState (s : CircuitState) : Nat × Nat × Bool :=
  (s.failures, s.lastFailureTime, s.isOpen)

/-! ## Screencast frame queue (src/unnamed/part_003 lines 156-199)

The `Page.screencastFrame` handler of the ws server keeps a per-client
`frameQueue`.  When the channel is OPEN it enqueues the frame, first shifting
the oldest record whenever `frameQueue.length > 10`; when the channel is not
OPEN the frame is skipped.  In either case exactly one
`Page.screencastFrameAck` is then sent with the frame's `sessionId`. -/

/-- One queued frame record `{data, sessionId}`. -/
structure Frame where
  data : String
  sessionId : String
  deriving Repr, DecidableEq

/-- The enqueue step of the frame handler (part_003 lines 167-178): queues are
lists with the oldest record at the head (JavaScript `push` appends,
`shift` removes the head). -/
def enqueueFrame (wsOpen : Bool) (q : List Frame) (f : Frame) : List Frame :=
  if wsOpen then
    (if q.length > 10 then q.drop 1 else q) ++ [f]
  else q

/-- The whole frame-event handler: the updated queue together with the ack
attempts issued (part_003 lines 180-195 ack unconditionally). -/
def screencastFrameStep (wsOpen : Bool) (q : List Frame) (f : Frame) :
    List Frame × List String :=
  (enqueueFrame wsOpen q f, [f.sessionId])

/-- Handle a whole sequence of CDP frame events, returning the final queue and
the concatenated list of ack attempts. -/
def runFrameEvents (wsOpen : Bool) (q : List Frame) :
    List Frame → List Frame × List String
  | [] => (q, [])
  | f :: fs =>
    let step := screencastFrameStep wsOpen q f
    let rest := runFrameEvents wsOpen step.1 fs
    (rest.1, step.2 ++ rest.2)

/-- The socket.io variant of the frame handler
(src/src/server/index.ts lines 123-153): when `heapUsedPercent > 90` the frame
is skipped but still acked; otherwise it is emitted and acked.  Returns the
frames forwarded to the client and the ack attempts issued. -/
def frameHandlerSocket (heapUsedPercent : ℚ) (f : Frame) :
    List Frame × List String :=
  if heapUsedPercent > 90 then ([], [f.sessionId])
  else ([f], [f.sessionId])

/-! ## ResilientBrowserManager (src/src/server/resilience/BrowserManager.ts) -/

/-- The per-client `ClientSession` record, with the browser/page/CDP handles
abstracted away (their liveness is summarised by the health-probe outcome). -/
structure ClientSession where
  lastActivity : Nat
  healthCheckFailures : Nat
  isHealthy : Bool
  deriving Repr, DecidableEq

/-- One round of `checkSessionHealth` (BrowserManager.ts lines 199-244).
`probeOk` abstracts the four probe steps (browser connected, process alive,
`page.evaluate(() => true)`, CDP `Runtime.evaluate`): `true` when all
succeed.  Returns the updated session and whether `recoverSession` was
triggered. -/
def checkSessionHealth (maxHealthCheckFailures : Nat) (probeOk : Bool)
    (s : ClientSession) : ClientSession × Bool :=
  if probeOk then
    ({ s with healthCheckFailures := 0, isHealthy := true }, false)
  else
    let f := s.healthCheckFailures + 1
    if maxHealthCheckFailures ≤ f then
      ({ s with healthCheckFailures := f, isHealthy := false }, true)
    else
      ({ s with healthCheckFailures := f }, false)

/-- `getSession` (BrowserManager.ts lines 276-299).  `entry` is the map entry
for the client; `recoverOutcome` is the map entry after `recoverSession`
completes (a fresh healthy session on success; on failure the old, still
unhealthy, session or nothing).  Returns the session handed to the caller,
the map entry afterwards, and whether recovery was invoked. -/
def getSession (entry : Option ClientSession) (now : Nat)
    (recoverOutcome : Option ClientSession) :
    Option ClientSession × Option ClientSession × Bool :=
  match entry with
  | none => (none, none, false)
  | some s =>
    let s1 := { s with lastActivity := now }
    if s1.isHealthy then (some s1, some s1, false)
    else
      match recoverOutcome with
      | none => (none, none, true)
      | some ns => if ns.isHealthy then (some ns, some ns, true)
                   else (none, some ns, true)

/-! ## MemoryManager (src/src/server/resilience/MemoryManager.ts) -/

/-- `Page.startScreencast` parameter set. -/
structure ScreencastParams where
  format : String
  quality : Nat
  maxWidth : Nat
  maxHeight : Nat
  everyNthFrame : Nat
  deriving Repr, DecidableEq

/-- The degraded profile of `reduceSessionQuality`
(MemoryManager.ts lines 171-177). -/
def reducedParams : ScreencastParams := ⟨"jpeg", 30, 1024, 768, 2⟩

/-- `clearFrameBuffers` (MemoryManager.ts lines 149-162): every per-client
buffer longer than 2 is replaced by `frames.slice(-2)`, its 2 most recent
entries; shorter buffers are left alone. -/
def clearFrameBuffers (bufs : List (String × List Nat)) :
    List (String × List Nat) :=
  bufs.map (fun p => (p.1, if p.2.length > 2 then p.2.drop (p.2.length - 2) else p.2))

/-- Effect of one memory-pressure check. -/
structure MemAction where
  buffers : List (String × List Nat)
  gcRequested : Bool
  restarts : List (String × ScreencastParams)
  deriving Repr, DecidableEq

/-- `checkMemoryPressure` (MemoryManager.ts lines 66-78) together with the
bodies of `performCleanup` (80-88) and `emergencyCleanup` (90-109).
`pct` is the sampled `heapUsedPercent`; `gcAvailable` whether `global.gc`
is hosted; `sessions` the client ids of the browser manager's sessions. -/
def checkMemoryPressure (pct : ℚ) (gcAvailable : Bool) (now lastGC : Nat)
    (bufs : List (String × List Nat)) (sessions : List String) : MemAction :=
  if pct > 95 then
    ⟨[], gcAvailable, sessions.map (fun c => (c, reducedParams))⟩
  else if pct > 85 then
    ⟨clearFrameBuffers bufs, gcAvailable && decide (now - lastGC > 30000), []⟩
  else
    ⟨bufs, false, []⟩

/-! ## Message dispatch (src/unnamed/part_003 lines 240-311)

The `ws.on('message')` switch routes an inbound `{type, ...}` message either
to a command handler, to the heartbeat reply, or — for any other type — to
`sendError(ws, message.type, "Unknown message type: " + message.type)`.  The
ws-variant `sendError` (MessageHandlers.ts lines 512-520) emits
`{type, status:"error", error}` when the channel is OPEN; nothing in the
dispatch closes the channel. -/

/-- A server→client control message as sent by the ws variant. -/
structure WsReply where
  typeField : String
  statusField : Option String
  errorField : Option String
  timestampField : Option Nat
  deriving Repr, DecidableEq

/-- `ResilientMessageHandlers.sendError` (ws variant, MessageHandlers.ts
lines 512-520). -/
def sendErrorWs (wsOpen : Bool) (t e : String) : List WsReply :=
  if wsOpen then [⟨t, some "error", some e, none⟩] else []

/-- `ResilientMessageHandlers.sendHeartbeat` (MessageHandlers.ts
lines 522-529). -/
def sendHeartbeatWs (wsOpen : Bool) (now : Nat) : List WsReply :=
  if wsOpen then [⟨"heartbeat", none, none, some now⟩] else []

/-- The command handlers a message can be routed to. -/
inductive HandlerCall where
  | navigate
  | click
  | scroll
  | typeText
  | evaluate
  | screenshotAndHtml
  deriving Repr, DecidableEq

/-- The message types with a dedicated switch case in part_003 lines 250-306. -/
def handledTypes : List String :=
  ["navigate", "click", "scroll", "type", "evaluate", "heartbeat",
   "request_screenshot_and_html"]

/-- The `ws.on('message')` switch (part_003 lines 250-306): the replies sent
synchronously by the dispatch itself, the handler invoked (if any), and
whether the channel remains open afterwards (no branch closes it). -/
def dispatchMessage (wsOpen : Bool) (msgType : String) (now : Nat) :
    List WsReply × Option HandlerCall × Bool :=
  if msgType = "navigate" then ([], some .navigate, true)
  else if msgType = "click" then ([], some .click, true)
  else if msgType = "scroll" then ([], some .scroll, true)
  else if msgType = "type" then ([], some .typeText, true)
  else if msgType = "evaluate" then ([], some .evaluate, true)
  else if msgType = "heartbeat" then (sendHeartbeatWs wsOpen now, none, true)
  else if msgType = "request_screenshot_and_html" then
    ([], some .screenshotAndHtml, true)
  else
    (sendErrorWs wsOpen msgType ("Unknown message type: " ++ msgType), none, true)

/-! ## handleNavigate (src/src/server/resilience/MessageHandlers.ts lines 8-68)

The socket.io navigation handler computes a target URL (`https://` is
prepended unless the input starts with `"http"`), then runs under
`withRetry(retries, pageTimeout + 5000, backoff)` an attempt that first tries
`page.goto(target, {waitUntil:"networkidle0", timeout:primaryTimeout})` and,
should that fail, once more with
`{waitUntil:"domcontentloaded", timeout:fallbackTimeout}`; a successful
attempt emits one `navigation` success reply carrying the target URL.  On
terminal failure the handler emits a `navigation` error reply with the
terminal error message and `recoverable:true`, then best-effort resets the
page to `about:blank`. -/

/-- Navigation configuration (`getConfig().navigation`). -/
structure NavConfig where
  primaryTimeout : Nat
  fallbackTimeout : Nat
  pageTimeout : Nat
  retries : Nat
  backoff : Nat
  deriving Repr

/-- `String.prototype.startsWith` over the character sequences of the two
strings. -/
def strStartsWith (s p : String) : Bool :=
  p.data.isPrefixOf s.data

/-- Target-URL computation (MessageHandlers.ts line 17):
`url.startsWith('http') ? url : 'https://' + url`. -/
def targetUrlOf (url : String) : String :=
  if strStartsWith url "http" then url else "https://" ++ url

/-- Whether a character sequence contains the `"://"` scheme separator. -/
def hasSchemeSep : List Char → Bool
  | [] => false
  | c :: cs => [':', '/', '/'].isPrefixOf (c :: cs) || hasSchemeSep cs

/-- Modelled from the spec (§4.3 `navigate`): a URL "lacks a scheme" when it
contains no `"://"` scheme separator.  Used only to compare the spec's
wording with the source's `startsWith('http')` test. -/
def lacksScheme (url : String) : Bool :=
  !(hasSchemeSep url.data)

/-- Modelled from the spec (§4.3 `navigate`): "if `url` lacks a scheme,
prepend `https://`". -/
def specTargetUrl (url : String) : String :=
  if lacksScheme url then "https://" ++ url else url

/-- One recorded `page.goto` call with its navigation options. -/
structure GotoCall where
  url : String
  waitUntil : String
  timeout : Nat
  deriving Repr, DecidableEq

/-- Environment of one retry attempt: whether the primary
(`networkidle0`) strategy succeeds, whether the fallback
(`domcontentloaded`) strategy succeeds, and the error message the fallback
rejects with when it fails. -/
structure AttemptEnv where
  primaryOk : Bool
  fallbackOk : Bool
  fallbackErr : String

/-- Reply emitted on the `navigation` channel. -/
inductive NavReply where
  | success (url : String)
  | failure (error : String) (recoverable : Bool)
  deriving Repr, DecidableEq

/-- Trace of one navigation attempt or of the whole retry loop. -/
structure NavTrace where
  result : Except String Unit
  gotoCalls : List GotoCall
  replies : List NavReply
  deriving Repr

/-- One attempt of the retried operation (MessageHandlers.ts lines 16-45). -/
def navAttempt (cfg : NavConfig) (url : String) (env : AttemptEnv) : NavTrace :=
  let target := targetUrlOf url
  let primaryCall : GotoCall := ⟨target, "networkidle0", cfg.primaryTimeout⟩
  let fallbackCall : GotoCall := ⟨target, "domcontentloaded", cfg.fallbackTimeout⟩
  if env.primaryOk then
    ⟨.ok (), [primaryCall], [.success target]⟩
  else if env.fallbackOk then
    ⟨.ok (), [primaryCall, fallbackCall], [.success target]⟩
  else
    ⟨.error env.fallbackErr, [primaryCall, fallbackCall], []⟩

/-- The retry loop of `handleNavigate`, mirroring `retryLoop` while
accumulating the goto calls and replies of every attempt. -/
def navRetryLoop (cfg : NavConfig) (url : String) (env : Nat → AttemptEnv) :
    Nat → Option String → NavTrace
  | 0, lastErr => ⟨.error (retryTerminalMsg cfg.retries lastErr), [], []⟩
  | remaining + 1, _ =>
    let attempt := cfg.retries - (remaining + 1)
    let a := navAttempt cfg url (env attempt)
    match a.result with
    | .ok _ => ⟨.ok (), a.gotoCalls, a.replies⟩
    | .error e =>
      let rest := navRetryLoop cfg url env remaining (some e)
      ⟨rest.result, a.gotoCalls ++ rest.gotoCalls, a.replies ++ rest.replies⟩

/-- Outcome of `handleNavigate`: the goto calls of all navigation attempts,
the replies emitted, and whether the page was reset to `about:blank`. -/
structure NavOutcome where
  gotoCalls : List GotoCall
  replies : List NavReply
  pageResetAttempted : Bool
  deriving Repr

/-- `ResilientMessageHandlers.handleNavigate` (MessageHandlers.ts
lines 8-68). -/
def handleNavigate (cfg : NavConfig) (url : String) (env : Nat → AttemptEnv) :
    NavOutcome :=
  let t := navRetryLoop cfg url env cfg.retries none
  match t.result with
  | .ok _ => ⟨t.gotoCalls, t.replies, false⟩
  | .error e => ⟨t.gotoCalls, t.replies ++ [.failure e true], true⟩

/-! ## Lemmas about the retry loop -/

/-- The delays slept by the retry loop are consecutive powers starting at the
current attempt index. -/
theorem retryLoop_delays (op : Nat → Except String α) (retries backoff : Nat) :
    ∀ remaining lastErr, remaining + 1 ≤ retries + 1 →
      ∃ k, (retryLoop op retries backoff remaining lastErr).delays =
        (List.range' (retries - remaining) k).map (fun i => backoff * 2 ^ i) := by
  intro remaining
  induction remaining with
  | zero =>
    intro lastErr _
    exact ⟨0, rfl⟩
  | succ m ih =>
    intro lastErr hle
    simp only [retryLoop]
    cases hop : op (retries - (m + 1)) with
    | ok v => exact ⟨0, rfl⟩
    | error e =>
      by_cases hm : m = 0
      · subst hm
        simp only [if_pos rfl]
        exact ⟨0, rfl⟩
      · obtain ⟨k, hk⟩ := ih (some e) (by omega)
        refine ⟨k + 1, ?_⟩
        simp only [if_neg hm, hk]
        have harith : retries - m = (retries - (m + 1)) + 1 := by omega
        rw [harith, List.range'_succ, List.map_cons]

/-- The retry loop invokes the operation at most `remaining` times. -/
theorem retryLoop_invocations (op : Nat → Except String α)
    (retries backoff : Nat) :
    ∀ remaining lastErr,
      (retryLoop op retries backoff remaining lastErr).invocations ≤ remaining := by
  intro remaining
  induction remaining with
  | zero => intro lastErr; exact Nat.le_refl 0
  | succ m ih =>
    intro lastErr
    simp only [retryLoop]
    cases op (retries - (m + 1)) with
    | ok v => exact Nat.succ_le_succ (Nat.zero_le m)
    | error e =>
      by_cases hm : m = 0
      · simp only [if_pos hm]
        exact Nat.succ_le_succ (ih (some e))
      · simp only [if_neg hm]
        exact Nat.succ_le_succ (ih (some e))

/-- When every attempt fails, the retry loop terminates with the message built
from the error of the last attempt, `retries - 1`. -/
theorem retryLoop_all_fail (op : Nat → Except String α)
    (retries backoff : Nat) (e : Nat → String)
    (hop : ∀ a, op a = .error (e a)) :
    ∀ remaining, 1 ≤ remaining → ∀ lastErr,
      (retryLoop op retries backoff remaining lastErr).result =
        .error (retryTerminalMsg retries (some (e (retries - 1)))) := by
  intro remaining
  induction remaining with
  | zero => intro h; omega
  | succ m ih =>
    intro _ lastErr
    simp only [retryLoop, hop (retries - (m + 1))]
    by_cases hm : m = 0
    · subst hm
      simp [retryLoop]
    · simp only [if_neg hm]
      exact ih (by omega) (some (e (retries - (m + 1))))

/-! ## Claims C4 and C10 — withRetry -/

/-- C4: `withRetry(op, {retries, backoff})` attempts the operation up to
`retries` times; the delays slept form the sequence
`backoff * 2 ^ 0, backoff * 2 ^ 1, ...` — the delay preceding the i-th retry
(0-based) is `backoff * 2 ^ i` — hence consecutive retry delays are
nondecreasing; and when every attempt fails the terminal rejection carries
the last underlying error. -/
theorem withRetry_spec (op : Nat → Except String α)
    (retries backoff : Nat) (e : Nat → String) :
    (∃ k, (withRetry op retries backoff).delays =
      (List.range k).map (fun i => backoff * 2 ^ i)) ∧
    List.Pairwise (· ≤ ·) (withRetry op retries backoff).delays ∧
    (withRetry op retries backoff).invocations ≤ retries ∧
    ((∀ a, op a = .error (e a)) → 1 ≤ retries →
      (withRetry op retries backoff).result =
        .error (retryTerminalMsg retries (some (e (retries - 1))))) := by
  obtain ⟨k, hk⟩ :=
    retryLoop_delays op retries backoff retries none (by omega)
  have hk' : (withRetry op retries backoff).delays =
      (List.range k).map (fun i => backoff * 2 ^ i) := by
    rw [withRetry, hk, Nat.sub_self, List.range_eq_range']
  refine ⟨⟨k, hk'⟩, ?_, retryLoop_invocations op retries backoff retries none,
    fun hop hr => retryLoop_all_fail op retries backoff e hop retries hr none⟩
  rw [hk']
  refine List.Pairwise.map _ (fun i j hij => ?_) (List.pairwise_lt_range k)
  exact Nat.mul_le_mul_left backoff
    (Nat.pow_le_pow_right (by omega) (Nat.le_of_lt hij))

/-- Always-failing concrete operation used to witness `withRetry_spec`. -/
def opAlwaysFail : Nat → Except String Nat :=
  fun a => .error ("E" ++ toString a)

/-- Witness for `withRetry_spec` at a concrete always-failing operation. -/
theorem withRetry_spec_witness :
    (withRetry opAlwaysFail 3 100).invocations ≤ 3 ∧
    (withRetry opAlwaysFail 3 100).delays = [100, 200] ∧
    (withRetry opAlwaysFail 3 100).result =
      .error (retryTerminalMsg 3 (some ("E" ++ toString 2))) := by
  refine ⟨(withRetry_spec opAlwaysFail 3 100 (fun a => "E" ++ toString a)).2.2.1,
    by decide,
    (withRetry_spec opAlwaysFail 3 100 (fun a => "E" ++ toString a)).2.2.2
      (fun a => rfl) (by omega)⟩

/-- C10: `withRetry` with `retries = 0` never enters the attempt loop: it
invokes the operation zero times and rejects with the terminal
"failed after 0 attempts" error (the last-error interpolation renders as
"undefined"). -/
theorem withRetry_zero_retries (op : Nat → Except String α) (backoff : Nat) :
    (withRetry op 0 backoff).invocations = 0 ∧
    (withRetry op 0 backoff).delays = [] ∧
    (withRetry op 0 backoff).result =
      .error "Operation failed after 0 attempts: undefined" :=
  ⟨rfl, rfl, rfl⟩

/-! ## Claim C3 — circuit breaker -/

/-- C3: once a failure brings the counter to `threshold` the breaker opens;
while open and within the reset window every call fails fast without
invoking the operation and leaves the state untouched; once
`now - lastFailure > resetAfter` the next call is attempted with the counter
reset; and a success while the breaker is closed resets the counter to 0. -/
theorem circuitBreaker_spec (threshold resetTimeout : Nat) (s : CircuitState)
    (now : Nat) (op : Except String α) :
    (s.isOpen = false →
      (∀ e, op = .error e → threshold ≤ s.failures + 1 →
        (cbExecute threshold resetTimeout s now op).state.isOpen = true ∧
        (cbExecute threshold resetTimeout s now op).invoked = true)) ∧
    (s.isOpen = true → now - s.lastFailureTime ≤ resetTimeout →
      cbExecute threshold resetTimeout s now op =
        ⟨s, false, .error "Circuit breaker is open - operation blocked"⟩) ∧
    (s.isOpen = true → now - s.lastFailureTime > resetTimeout →
      (cbExecute threshold resetTimeout s now op).invoked = true ∧
      (∀ v, op = .ok v →
        (cbExecute threshold resetTimeout s now op).state.failures = 0) ∧
      (∀ e, op = .error e →
        (cbExecute threshold resetTimeout s now op).state.failures = 1)) ∧
    (s.isOpen = false → ∀ v, op = .ok v →
      cbExecute threshold resetTimeout s now op =
        ⟨{ s with failures := 0 }, true, .ok v⟩) := by
  refine ⟨?_, ?_, ?_, ?_⟩
  · intro hclosed e hop hth
    subst hop
    simp [cbExecute, hclosed, hth]
  · intro hopen helapsed
    have hlt : ¬ resetTimeout < now - s.lastFailureTime := by omega
    simp [cbExecute, hopen, hlt]
  · intro hopen helapsed
    have hlt : resetTimeout < now - s.lastFailureTime := helapsed
    cases op with
    | ok v => simp [cbExecute, hopen, hlt]
    | error e => simp [cbExecute, hopen, hlt]
  · intro hclosed v hop
    subst hop
    simp [cbExecute, hclosed]

/-- Witness for `circuitBreaker_spec`: opening on the third failure, failing
fast inside the reset window, attempting with a reset counter once the window
elapsed, and a closed-state success resetting the counter. -/
theorem circuitBreaker_spec_witness :
    ((cbExecute 3 60000 ⟨2, 0, false⟩ 50
        (.error "boom" : Except String Nat)).state.isOpen = true ∧
      (cbExecute 3 60000 ⟨2, 0, false⟩ 50
        (.error "boom" : Except String Nat)).invoked = true) ∧
    (cbExecute 3 60000 ⟨3, 100, true⟩ 200 (.ok 5 : Except String Nat) =
      ⟨⟨3, 100, true⟩, false,
        .error "Circuit breaker is open - operation blocked"⟩) ∧
    ((cbExecute 3 60000 ⟨3, 100, true⟩ 61000
        (.ok 5 : Except String Nat)).invoked = true ∧
      (cbExecute 3 60000 ⟨3, 100, true⟩ 61000
        (.ok 5 : Except String Nat)).state.failures = 0) ∧
    (cbExecute 3 60000 ⟨2, 0, false⟩ 50 (.ok 7 : Except String Nat) =
      ⟨⟨0, 0, false⟩, true, .ok 7⟩) := by
  refine ⟨(circuitBreaker_spec 3 60000 ⟨2, 0, false⟩ 50 _).1 rfl "boom" rfl
      (by decide),
    (circuitBreaker_spec 3 60000 ⟨3, 100, true⟩ 200 _).2.1 rfl (by decide),
    ⟨((circuitBreaker_spec 3 60000 ⟨3, 100, true⟩ 61000 _).2.2.1 rfl
        (by decide)).1,
      ((circuitBreaker_spec 3 60000 ⟨3, 100, true⟩ 61000 _).2.2.1 rfl
        (by decide)).2.1 5 rfl⟩,
    (circuitBreaker_spec 3 60000 ⟨2, 0, false⟩ 50 _).2.2.2 rfl 7 rfl⟩

/-! ## Claim C1 — frame queue bound and oldest-first drop -/

/-- C1 fails on the code as stated: the handler drops only when
`frameQueue.length > 10` holds before pushing, so eleven frame events on an
OPEN channel (with the drain never running) leave eleven records in the
queue, exceeding `FRAME_QUEUE_MAX = 10`. -/
theorem frameQueue_max_ten_counterexample :
    (runFrameEvents true [] (List.replicate 11 ⟨"d", "s"⟩)).1.length = 11 := by
  decide

/-- C1 (amended): the per-client frame queue never holds more than 11 records
(the drop fires only when the queue already exceeds 10), and whenever a
record is dropped it is the oldest one in the queue — the head, enqueued
before every retained record — never the newest. -/
theorem frameQueue_bound_corrected (wsOpen : Bool) (q : List Frame)
    (fs : List Frame) (f x : Frame) (rest : List Frame) :
    (q.length ≤ 11 → (runFrameEvents wsOpen q fs).1.length ≤ 11) ∧
    (10 < (x :: rest).length →
      enqueueFrame true (x :: rest) f = rest ++ [f]) := by
  constructor
  · intro hq
    induction fs generalizing q with
    | nil => exact hq
    | cons g gs ih =>
      simp only [runFrameEvents, screencastFrameStep]
      apply ih
      simp only [enqueueFrame]
      cases wsOpen with
      | false => simpa using hq
      | true =>
        by_cases hlen : q.length > 10
        · simp [hlen]
          omega
        · simp [hlen]
          omega
  · intro hlen
    simp [enqueueFrame, hlen]
    simp at hlen
    omega

/-- Witness for `frameQueue_bound_corrected`: a full queue of eleven records
stays within eleven after another event, and an over-full queue drops exactly
its head. -/
theorem frameQueue_bound_corrected_witness :
    (runFrameEvents true (List.replicate 11 ⟨"d", "s"⟩) [⟨"e", "t"⟩]).1.length
      ≤ 11 ∧
    enqueueFrame true (⟨"d", "s"⟩ :: List.replicate 10 ⟨"d", "s"⟩) ⟨"e", "t"⟩ =
      List.replicate 10 ⟨"d", "s"⟩ ++ [⟨"e", "t"⟩] :=
  ⟨(frameQueue_bound_corrected true (List.replicate 11 ⟨"d", "s"⟩) [⟨"e", "t"⟩]
      ⟨"e", "t"⟩ ⟨"d", "s"⟩ (List.replicate 10 ⟨"d", "s"⟩)).1 (by decide),
   (frameQueue_bound_corrected true (List.replicate 11 ⟨"d", "s"⟩) [⟨"e", "t"⟩]
      ⟨"e", "t"⟩ ⟨"d", "s"⟩ (List.replicate 10 ⟨"d", "s"⟩)).2 (by decide)⟩

/-! ## Claim C2 — exactly one ack attempt per frame event -/

/-- C2: every CDP frame event produces exactly one `Page.screencastFrameAck`
attempt with that frame's `sessionId`, in CDP-emit order, regardless of the
channel state and of whether the frame was enqueued — and likewise in the
socket.io variant regardless of whether memory pressure skipped the frame. -/
theorem frameAck_exactly_once (wsOpen : Bool) (q : List Frame)
    (fs : List Frame) (pct : ℚ) (f : Frame) :
    (runFrameEvents wsOpen q fs).2 = fs.map (fun g => g.sessionId) ∧
    (frameHandlerSocket pct f).2 = [f.sessionId] := by
  constructor
  · induction fs generalizing q with
    | nil => rfl
    | cons g gs ih =>
      simp only [runFrameEvents, screencastFrameStep, List.map_cons]
      rw [ih]
      rfl
  · by_cases h : pct > 90
    · simp [frameHandlerSocket, h]
    · simp [frameHandlerSocket, h]

/-! ## Claim C5 — health-probe counter discipline -/

/-- C5: `healthCheckFailures` is only ever incremented by one (on probe
failure) or reset to 0 (on probe success, together with `isHealthy = true`);
when it reaches `maxHealthCheckFailures` the session is marked unhealthy and
recovery is triggered. -/
theorem healthFailures_spec (maxF : Nat) (probeOk : Bool) (s : ClientSession) :
    ((checkSessionHealth maxF probeOk s).1.healthCheckFailures = 0 ∨
     (checkSessionHealth maxF probeOk s).1.healthCheckFailures =
       s.healthCheckFailures + 1) ∧
    (probeOk = true →
      checkSessionHealth maxF probeOk s =
        ({ s with healthCheckFailures := 0, isHealthy := true }, false)) ∧
    (probeOk = false →
      (checkSessionHealth maxF probeOk s).1.healthCheckFailures =
        s.healthCheckFailures + 1) ∧
    (probeOk = false → maxF ≤ s.healthCheckFailures + 1 →
      (checkSessionHealth maxF probeOk s).1.isHealthy = false ∧
      (checkSessionHealth maxF probeOk s).2 = true) := by
  cases probeOk with
  | true =>
    refine ⟨Or.inl rfl, fun _ => rfl, ?_, ?_⟩
    · intro h
      cases h
    · intro h
      cases h
  | false =>
    refine ⟨?_, ?_, ?_, ?_⟩
    · by_cases hm : maxF ≤ s.healthCheckFailures + 1
      · exact Or.inr (by simp [checkSessionHealth, hm])
      · exact Or.inr (by simp [checkSessionHealth, hm])
    · intro h
      cases h
    · intro _
      by_cases hm : maxF ≤ s.healthCheckFailures + 1
      · simp [checkSessionHealth, hm]
      · simp [checkSessionHealth, hm]
    · intro _ hm
      simp [checkSessionHealth, hm]

/-- Witness for `healthFailures_spec`: a concrete probe success resets the
counter, and a concrete third consecutive failure with
`maxHealthCheckFailures = 3` marks the session unhealthy and triggers
recovery. -/
theorem healthFailures_spec_witness :
    checkSessionHealth 3 true ⟨7, 2, true⟩ = (⟨7, 0, true⟩, false) ∧
    (checkSessionHealth 3 false ⟨7, 2, true⟩).1.healthCheckFailures = 3 ∧
    (checkSessionHealth 3 false ⟨7, 2, true⟩).1.isHealthy = false ∧
    (checkSessionHealth 3 false ⟨7, 2, true⟩).2 = true :=
  ⟨(healthFailures_spec 3 true ⟨7, 2, true⟩).2.1 rfl,
   (healthFailures_spec 3 false ⟨7, 2, true⟩).2.2.1 rfl,
   ((healthFailures_spec 3 false ⟨7, 2, true⟩).2.2.2 rfl (by decide)).1,
   ((healthFailures_spec 3 false ⟨7, 2, true⟩).2.2.2 rfl (by decide)).2⟩

/-! ## Claim C6 — getSession -/

/-- C6: `getSession` returns null when no session is in the map; otherwise it
updates `lastActivity`, and for an unhealthy session it synchronously invokes
recovery, returning the newly created session when recovery yielded a healthy
one and null when recovery failed. -/
theorem getSession_spec (now : Nat) (s ns : ClientSession)
    (recoverOutcome : Option ClientSession) :
    getSession none now recoverOutcome = (none, none, false) ∧
    (s.isHealthy = true →
      getSession (some s) now recoverOutcome =
        (some { s with lastActivity := now },
         some { s with lastActivity := now }, false)) ∧
    (s.isHealthy = false →
      (getSession (some s) now recoverOutcome).2.2 = true ∧
      (getSession (some s) now none).1 = none ∧
      (ns.isHealthy = true →
        getSession (some s) now (some ns) = (some ns, some ns, true)) ∧
      (ns.isHealthy = false →
        (getSession (some s) now (some ns)).1 = none)) := by
  refine ⟨rfl, ?_, ?_⟩
  · intro h
    simp [getSession, h]
  · intro h
    refine ⟨?_, by simp [getSession, h], ?_, ?_⟩
    · cases recoverOutcome with
      | none => simp [getSession, h]
      | some m =>
        by_cases hm : m.isHealthy
        · simp [getSession, h, hm]
        · simp [getSession, h, hm]
    · intro hns
      simp [getSession, h, hns]
    · intro hns
      simp [getSession, h, hns]

/-- Witness for `getSession_spec`: healthy hit updates the timestamp; an
unhealthy entry triggers recovery and yields the fresh session, or null when
the recovered entry is still unhealthy. -/
theorem getSession_spec_witness :
    getSession (some ⟨5, 0, true⟩) 42 none =
      (some ⟨42, 0, true⟩, some ⟨42, 0, true⟩, false) ∧
    getSession (some ⟨5, 4, false⟩) 42 (some ⟨42, 0, true⟩) =
      (some ⟨42, 0, true⟩, some ⟨42, 0, true⟩, true) ∧
    (getSession (some ⟨5, 4, false⟩) 42 (some ⟨42, 9, false⟩)).1 = none :=
  ⟨(getSession_spec 42 ⟨5, 0, true⟩ ⟨42, 0, true⟩ none).2.1 rfl,
   ((getSession_spec 42 ⟨5, 4, false⟩ ⟨42, 0, true⟩ none).2.2 rfl).2.2.1 rfl,
   ((getSession_spec 42 ⟨5, 4, false⟩ ⟨42, 9, false⟩ none).2.2 rfl).2.2.2 rfl⟩

/-! ## Claim C8 — memory-pressure thresholds -/

/-- C8 fails on the code as stated: the thresholds are strict (`> 95`,
`> 85`).  At `heapUsedPercent = 95` — claimed emergency territory — the code
only trims the buffer to its 2 most recent entries and restarts no
screencast, and at `heapUsedPercent = 85` — claimed cleanup territory — it
does nothing at all. -/
theorem memoryPressure_boundary_counterexample :
    checkMemoryPressure 95 true 100000 0 [("c", [1, 2, 3])] ["c"] =
      ⟨[("c", [2, 3])], true, []⟩ ∧
    (checkMemoryPressure 95 true 100000 0 [("c", [1, 2, 3])] ["c"]).buffers
      ≠ [] ∧
    checkMemoryPressure 85 true 100000 0 [("c", [1, 2, 3])] ["c"] =
      ⟨[("c", [1, 2, 3])], false, []⟩ := by
  refine ⟨?_, ?_, ?_⟩ <;> decide

/-- C8 (amended): when the sampled `heapUsedPercent` lies in (85, 95] every
per-client frame buffer is trimmed to its (at most) 2 most recent entries and
a GC is requested exactly when one is hosted and the last GC was more than
30 s ago; when it exceeds 95 all frame buffers are dropped entirely, a GC is
requested whenever one is hosted, and every session's screencast is
restarted at `quality = 30, maxWidth = 1024, maxHeight = 768,
everyNthFrame = 2`; at or below 85 nothing happens. -/
theorem memoryPressure_spec (pct : ℚ) (gcAvailable : Bool) (now lastGC : Nat)
    (bufs : List (String × List Nat)) (sessions : List String) :
    (85 < pct → pct ≤ 95 →
      checkMemoryPressure pct gcAvailable now lastGC bufs sessions =
        ⟨bufs.map (fun p => (p.1, p.2.drop (p.2.length - 2))),
         gcAvailable && decide (now - lastGC > 30000), []⟩) ∧
    (95 < pct →
      checkMemoryPressure pct gcAvailable now lastGC bufs sessions =
        ⟨[], gcAvailable, sessions.map (fun c => (c, reducedParams))⟩) ∧
    (pct ≤ 85 →
      checkMemoryPressure pct gcAvailable now lastGC bufs sessions =
        ⟨bufs, false, []⟩) := by
  have hclear : clearFrameBuffers bufs =
      bufs.map (fun p => (p.1, p.2.drop (p.2.length - 2))) := by
    unfold clearFrameBuffers
    apply List.map_congr_left
    intro p _
    by_cases hp : p.2.length > 2
    · simp [hp]
    · have h0 : p.2.length - 2 = 0 := by omega
      simp [hp, h0]
  refine ⟨?_, ?_, ?_⟩
  · intro h1 h2
    have hn : ¬ pct > 95 := by exact not_lt.mpr h2
    simp [checkMemoryPressure, hn, h1, hclear]
  · intro h
    simp [checkMemoryPressure, h]
  · intro h
    have hn95 : ¬ pct > 95 := by
      intro hc
      exact absurd (lt_of_le_of_lt h (by norm_num)) (not_lt.mpr (le_of_lt hc))
    have hn85 : ¬ pct > 85 := not_lt.mpr h
    simp [checkMemoryPressure, hn95, hn85]

/-- Witness for `memoryPressure_spec` at the three concrete samples 90
(cleanup), 96 (emergency) and 50 (no action). -/
theorem memoryPressure_spec_witness :
    checkMemoryPressure 90 true 100000 0 [("c", [1, 2, 3])] ["c"] =
      ⟨[("c", [2, 3])], true, []⟩ ∧
    checkMemoryPressure 96 true 100000 0 [("c", [1, 2, 3])] ["c"] =
      ⟨[], true, [("c", reducedParams)]⟩ ∧
    checkMemoryPressure 50 true 100000 0 [("c", [1, 2, 3])] ["c"] =
      ⟨[("c", [1, 2, 3])], false, []⟩ := by
  refine ⟨?_, ?_, ?_⟩
  · have h := (memoryPressure_spec 90 true 100000 0 [("c", [1, 2, 3])]
      ["c"]).1 (by norm_num) (by norm_num)
    rw [h]
    decide
  · exact (memoryPressure_spec 96 true 100000 0 [("c", [1, 2, 3])]
      ["c"]).2.1 (by norm_num)
  · exact (memoryPressure_spec 50 true 100000 0 [("c", [1, 2, 3])]
      ["c"]).2.2 (by norm_num)

/-! ## Claim C9 — unknown message type -/

/-- C9: an inbound message whose type is none of the handled command types is
answered by an error reply whose type field is the original type and whose
error text is "Unknown message type: <type>"; the channel remains open, and a
subsequent heartbeat is still processed. -/
theorem unknownMessage_spec (msgType : String) (now : Nat)
    (h : msgType ∉ handledTypes) :
    dispatchMessage true msgType now =
      ([⟨msgType, some "error",
         some ("Unknown message type: " ++ msgType), none⟩], none, true) ∧
    (dispatchMessage true msgType now).2.2 = true ∧
    dispatchMessage true "heartbeat" now =
      ([⟨"heartbeat", none, none, some now⟩], none, true) := by
  simp only [handledTypes, List.mem_cons, List.not_mem_nil, or_false,
    not_or] at h
  obtain ⟨h1, h2, h3, h4, h5, h6, h7⟩ := h
  refine ⟨?_, ?_, ?_⟩
  · simp [dispatchMessage, sendErrorWs, h1, h2, h3, h4, h5, h6, h7]
  · simp [dispatchMessage, sendErrorWs, h1, h2, h3, h4, h5, h6, h7]
  · rfl

/-- Witness for `unknownMessage_spec`: the boundary scenario message
`{type:"teleport"}`. -/
theorem unknownMessage_spec_witness :
    dispatchMessage true "teleport" 7 =
      ([⟨"teleport", some "error",
         some ("Unknown message type: " ++ "teleport"), none⟩], none, true) ∧
    dispatchMessage true "heartbeat" 7 =
      ([⟨"heartbeat", none, none, some 7⟩], none, true) :=
  ⟨(unknownMessage_spec "teleport" 7 (by decide)).1,
   (unknownMessage_spec "teleport" 7 (by decide)).2.2⟩

/-! ## Lemmas about the navigation retry loop -/

/-- A retry loop that resolved emitted exactly one `navigation` success reply,
carrying the target URL. -/
theorem navRetryLoop_ok_replies (cfg : NavConfig) (url : String)
    (env : Nat → AttemptEnv) :
    ∀ remaining lastErr,
      (navRetryLoop cfg url env remaining lastErr).result = .ok () →
      (navRetryLoop cfg url env remaining lastErr).replies =
        [.success (targetUrlOf url)] := by
  intro remaining
  induction remaining with
  | zero =>
    intro lastErr h
    exact absurd h (by simp [navRetryLoop])
  | succ m ih =>
    intro lastErr h
    by_cases hp : (env (cfg.retries - (m + 1))).primaryOk
    · simp [navRetryLoop, navAttempt, hp]
    · by_cases hf : (env (cfg.retries - (m + 1))).fallbackOk
      · simp [navRetryLoop, navAttempt, hp, hf]
      · simp only [navRetryLoop, navAttempt, hp, hf] at h ⊢
        simp only [Bool.false_eq_true, if_false] at h ⊢
        exact ih (some ((env (cfg.retries - (m + 1))).fallbackErr)) h

/-- As soon as one attempt runs, the first recorded `page.goto` uses
`waitUntil = networkidle0` with the primary timeout. -/
theorem navRetryLoop_firstCall (cfg : NavConfig) (url : String)
    (env : Nat → AttemptEnv) :
    ∀ remaining lastErr, 1 ≤ remaining →
      (navRetryLoop cfg url env remaining lastErr).gotoCalls.head? =
        some ⟨targetUrlOf url, "networkidle0", cfg.primaryTimeout⟩ := by
  intro remaining
  cases remaining with
  | zero =>
    intro lastErr h
    omega
  | succ m =>
    intro lastErr _
    by_cases hp : (env (cfg.retries - (m + 1))).primaryOk
    · simp [navRetryLoop, navAttempt, hp]
    · by_cases hf : (env (cfg.retries - (m + 1))).fallbackOk
      · simp [navRetryLoop, navAttempt, hp, hf]
      · simp [navRetryLoop, navAttempt, hp, hf]

/-- When every strategy of every attempt fails, the loop rejects with the
terminal message built from the last attempt's fallback error and emits no
reply. -/
theorem navRetryLoop_all_fail (cfg : NavConfig) (url : String)
    (env : Nat → AttemptEnv)
    (hfail : ∀ i, (env i).primaryOk = false ∧ (env i).fallbackOk = false) :
    ∀ remaining, 1 ≤ remaining → ∀ lastErr,
      (navRetryLoop cfg url env remaining lastErr).result =
        .error (retryTerminalMsg cfg.retries
          (some ((env (cfg.retries - 1)).fallbackErr))) ∧
      (navRetryLoop cfg url env remaining lastErr).replies = [] := by
  intro remaining
  induction remaining with
  | zero =>
    intro h
    omega
  | succ m ih =>
    intro _ lastErr
    obtain ⟨hp, hf⟩ := hfail (cfg.retries - (m + 1))
    by_cases hm : m = 0
    · subst hm
      simp [navRetryLoop, navAttempt, hp, hf]
    · have h1 : 1 ≤ m := by omega
      obtain ⟨hr, hrep⟩ :=
        ih h1 (some ((env (cfg.retries - (m + 1))).fallbackErr))
      simp [navRetryLoop, navAttempt, hp, hf, hr, hrep]

/-! ## Claim C7 — navigate -/

/-- C7 fails on the code as stated: the source tests
`url.startsWith('http')`, not the presence of a scheme, so the schemeless
host `"httpbin.org"` is navigated to unchanged instead of receiving the
`https://` prefix the claim requires. -/
theorem navigate_scheme_counterexample :
    lacksScheme "httpbin.org" = true ∧
    targetUrlOf "httpbin.org" = "httpbin.org" ∧
    specTargetUrl "httpbin.org" ≠ targetUrlOf "httpbin.org" :=
  ⟨by decide, rfl, by decide⟩

/-- C7 (amended): for every navigate command, if the url does not start with
"http" the target URL is `https://` prepended to it; each attempt first
issues `page.goto` with `waitUntil = networkidle0` under the primary timeout,
and on failure of that strategy retries once with
`waitUntil = domcontentloaded` under the fallback timeout; a resolved retry
loop yields exactly one navigation success reply whose url is the full
target URL; and when every attempt fails the terminal failure is surfaced in
a single error reply marked recoverable, followed by a best-effort page
reset. -/
theorem handleNavigate_spec_corrected (cfg : NavConfig) (url : String)
    (env : Nat → AttemptEnv) (e : AttemptEnv) :
    (strStartsWith url "http" = false → targetUrlOf url = "https://" ++ url) ∧
    ((navAttempt cfg url e).gotoCalls =
      ⟨targetUrlOf url, "networkidle0", cfg.primaryTimeout⟩ ::
        (if e.primaryOk then []
         else [⟨targetUrlOf url, "domcontentloaded", cfg.fallbackTimeout⟩])) ∧
    (1 ≤ cfg.retries →
      (handleNavigate cfg url env).gotoCalls.head? =
        some ⟨targetUrlOf url, "networkidle0", cfg.primaryTimeout⟩) ∧
    ((navRetryLoop cfg url env cfg.retries none).result = .ok () →
      (handleNavigate cfg url env).replies = [.success (targetUrlOf url)] ∧
      (handleNavigate cfg url env).pageResetAttempted = false) ∧
    ((∀ i, (env i).primaryOk = false ∧ (env i).fallbackOk = false) →
      1 ≤ cfg.retries →
      (handleNavigate cfg url env).replies =
        [.failure (retryTerminalMsg cfg.retries
          (some ((env (cfg.retries - 1)).fallbackErr))) true] ∧
      (handleNavigate cfg url env).pageResetAttempted = true) := by
  refine ⟨?_, ?_, ?_, ?_, ?_⟩
  · intro h
    simp [targetUrlOf, h]
  · by_cases hp : e.primaryOk
    · simp [navAttempt, hp]
    · by_cases hf : e.fallbackOk
      · simp [navAttempt, hp, hf]
      · simp [navAttempt, hp, hf]
  · intro hr
    have hhead := navRetryLoop_firstCall cfg url env cfg.retries none hr
    cases ht : (navRetryLoop cfg url env cfg.retries none).result with
    | ok v =>
      simp only [handleNavigate, ht]
      exact hhead
    | error msg =>
      simp only [handleNavigate, ht]
      exact hhead
  · intro ht
    have hrep := navRetryLoop_ok_replies cfg url env cfg.retries none ht
    simp only [handleNavigate, ht]
    exact ⟨hrep, trivial⟩
  · intro hfail hr
    obtain ⟨ht, hrep⟩ := navRetryLoop_all_fail cfg url env hfail cfg.retries hr none
    simp only [handleNavigate, ht]
    simp [hrep]

/-- All-attempts environment whose fallback strategy succeeds, used to
witness `handleNavigate_spec_corrected`. -/
def navEnvSucc : Nat → AttemptEnv := fun _ => ⟨false, true, "err"⟩

/-- Environment in which both strategies of every attempt fail. -/
def navEnvFail : Nat → AttemptEnv := fun i => ⟨false, false, "err" ++ toString i⟩

/-- Witness for `handleNavigate_spec_corrected` on `navigate("example.com")`
with retries 3: the scheme prefix, the primary strategy first, one success
reply through the fallback strategy, and the surfaced terminal failure. -/
theorem handleNavigate_spec_corrected_witness :
    targetUrlOf "example.com" = "https://" ++ "example.com" ∧
    (handleNavigate ⟨20000, 15000, 30000, 3, 2000⟩ "example.com"
      navEnvSucc).gotoCalls.head? =
        some ⟨targetUrlOf "example.com", "networkidle0", 20000⟩ ∧
    (handleNavigate ⟨20000, 15000, 30000, 3, 2000⟩ "example.com"
      navEnvSucc).replies = [.success (targetUrlOf "example.com")] ∧
    (handleNavigate ⟨20000, 15000, 30000, 3, 2000⟩ "example.com"
      navEnvFail).replies =
        [.failure (retryTerminalMsg 3 (some ((navEnvFail 2).fallbackErr)))
          true] :=
  ⟨(handleNavigate_spec_corrected ⟨20000, 15000, 30000, 3, 2000⟩ "example.com"
      navEnvSucc ⟨false, true, "err"⟩).1 (by decide),
   (handleNavigate_spec_corrected ⟨20000, 15000, 30000, 3, 2000⟩ "example.com"
      navEnvSucc ⟨false, true, "err"⟩).2.2.1 (by decide),
   ((handleNavigate_spec_corrected ⟨20000, 15000, 30000, 3, 2000⟩ "example.com"
      navEnvSucc ⟨false, true, "err"⟩).2.2.2.1 rfl).1,
   ((handleNavigate_spec_corrected ⟨20000, 15000, 30000, 3, 2000⟩ "example.com"
      navEnvFail ⟨false, false, "err"⟩).2.2.2.2
        (fun i => ⟨rfl, rfl⟩) (by decide)).1⟩

end Breamer
